import Mathlib

/-
Formal model of the AutoBeluga match-report extraction and persistence
pipeline (src/AutoBeluga/all_matchup_stats.py and src/AutoBeluga/schedule_url.py).
Python strings that are inspected character by character are modeled as
List Char; regular-expression searches are modeled by explicit scanning
functions with the same leftmost-match semantics; Python dicts are modeled
as insertion-ordered association lists; the MySQL layer is modeled as an
explicit staged-transaction state machine.
-/

/-! ## Basic string utilities -/

/-- Lowercasing of a character list: models Python str.lower() on the
substitution-tag strings. -/
def listLower (s : List Char) : List Char := s.map Char.toLower

/-- Substring test: models Python `pat in s`. -/
def containsSub (s pat : List Char) : Bool := decide (pat <:+: s)

/-- The ASCII decimal digits, the character class matched by CPython re \d
on the data this code scans. -/
def digitChars : List Char := "0123456789".toList

/-- Boolean digit test against digitChars. -/
def isDigitChar (c : Char) : Bool := digitChars.contains c

/-- Numeric value of a digit character. -/
def digitVal (c : Char) : Nat := c.toNat - 48

/-- Parse a nonempty all-digit character list to a natural number. -/
def parseNatDigits (l : List Char) : Option Nat :=
  if l ≠ [] ∧ l.all isDigitChar then
    some (l.foldl (fun a c => a * 10 + digitVal c) 0)
  else none

/-- Python int(s) as used on scraped stat cells: parse an optionally
negated digit string; any parse failure is caught by the bare except
and yields 0. -/
def pyInt (s : String) : Int :=
  match s.toList with
  | '-' :: rest =>
    match parseNatDigits rest with
    | some n => -(n : Int)
    | none => 0
  | l =>
    match parseNatDigits l with
    | some n => (n : Int)
    | none => 0

/-- Fractional part digits of a decimal literal, as a rational. -/
def parseFracDigits (l : List Char) : ℚ :=
  l.foldr (fun c a => ((digitVal c : ℚ) + a) / 10) 0

/-- Decimal-literal body parser for pyFloat. -/
def pyFloatCore (l : List Char) : Option ℚ :=
  let ip := l.takeWhile isDigitChar
  let rest := l.drop ip.length
  match rest with
  | [] => (parseNatDigits ip).map (fun n => (n : ℚ))
  | '.' :: fp =>
    if fp.all isDigitChar ∧ (ip ≠ [] ∨ fp ≠ []) then
      some ((ip.foldl (fun a c => a * 10 + digitVal c) 0 : ℕ) + parseFracDigits fp)
    else none
  | _ => none

/-- Python float(s) as used on the sca cell, modeled over the exact
rationals; any parse failure is caught by the bare except and yields 0. -/
def pyFloat (s : String) : ℚ :=
  match s.toList with
  | '-' :: rest =>
    match pyFloatCore rest with
    | some q => -q
    | none => 0
  | l => (pyFloatCore l).getD 0

/-- Python round() on a rational: round half to even, then int() is the
identity on the result. -/
def pyRound (q : ℚ) : Int :=
  if q - ⌊q⌋ < 1 / 2 then ⌊q⌋
  else if 1 / 2 < q - ⌊q⌋ then ⌊q⌋ + 1
  else if 2 ∣ ⌊q⌋ then ⌊q⌋ else ⌊q⌋ + 1

/-! ## Starter classifier (all_matchup_stats.py, assign_starter_flag) -/

/-- The initial substitution tag "n/a" set by init_player_dict. -/
def naTag : List Char := "n/a".toList

/-- Model of assign_starter_flag (all_matchup_stats.py lines 517-530).
The pdict fields are passed explicitly: minutes and the sub_in_out string. -/
def assign_starter_flag (mins : Int) (sub_in_out : List Char) : String :=
  let sub_info := listLower sub_in_out
  if mins < 90 ∧ containsSub sub_info "out".toList = true then "yes"
  else if mins < 90 ∧ containsSub sub_info "in".toList = true ∧
      containsSub sub_info "out".toList = false then "no"
  else if 90 ≤ mins ∧ sub_info = naTag then "yes"
  else "no"

/-- The substitution tags that can be attached to a player record: the
initial "n/a", or an in/out tag carrying the minute digits written by the
substitution processor. -/
inductive SubTag where
  | noTag : SubTag
  | tagIn (minute : List Char) : SubTag
  | tagOut (minute : List Char) : SubTag

/-- The sub_in_out string stored for each tag, exactly as formatted by the
code: "n/a", or an f-string with the prime mark. -/
def SubTag.render : SubTag → List Char
  | SubTag.noTag => naTag
  | SubTag.tagIn m => "In | ".toList ++ (m ++ ['’'])
  | SubTag.tagOut m => "Out | ".toList ++ (m ++ ['’'])

/-- The minute characters carried by a tag. -/
def SubTag.minuteChars : SubTag → List Char
  | SubTag.noTag => []
  | SubTag.tagIn m => m
  | SubTag.tagOut m => m

/-- The four-case starter classification exactly as the specification
states it: out-tag with minutes < 90 is a starter; in-tag (and no out)
with minutes < 90 is a non-starter; no tag with minutes >= 90 is a
starter; every other case is a non-starter. -/
def starter_spec (mins : Int) (t : SubTag) : String :=
  match t with
  | SubTag.tagOut _ => if mins < 90 then "yes" else "no"
  | SubTag.tagIn _ => "no"
  | SubTag.noTag => if 90 ≤ mins then "yes" else "no"

theorem contains_false_of_not_mem {s pat : List Char} (c : Char) (hc : c ∈ pat)
    (hs : c ∉ s) : containsSub s pat = false := by
  simp only [containsSub, decide_eq_false_iff_not]
  intro hinf
  exact hs (hinf.subset hc)

theorem lower_digit {c : Char} (h : c ∈ digitChars) : Char.toLower c = c := by
  fin_cases h <;> decide

theorem digit_ne_o {c : Char} (h : c ∈ digitChars) : c ≠ 'o' := by
  fin_cases h <;> decide

theorem listLower_append (a b : List Char) :
    listLower (a ++ b) = listLower a ++ listLower b := by
  simp [listLower]

theorem listLower_digits {m : List Char} (hm : ∀ c ∈ m, c ∈ digitChars) :
    listLower m = m := by
  unfold listLower
  rw [List.map_congr_left (fun c hc => lower_digit (hm c hc))]
  exact List.map_id m

theorem contains_out_of_out_run (m rest : List Char) :
    containsSub ('o' :: ('u' :: ('t' :: m)) ++ rest) "out".toList = true := by
  simp only [containsSub, decide_eq_true_eq]
  exact ⟨[], m ++ rest, by simp⟩

theorem contains_in_of_in_run (rest : List Char) :
    containsSub ('i' :: ('n' :: rest)) "in".toList = true := by
  simp only [containsSub, decide_eq_true_eq]
  exact ⟨[], rest, by simp⟩

theorem no_out_in_lower_in_tag {m : List Char} (hm : ∀ c ∈ m, c ∈ digitChars) :
    containsSub ("in | ".toList ++ (m ++ ['’'])) "out".toList = false := by
  apply contains_false_of_not_mem 'o' (by decide)
  intro hmem
  rcases List.mem_append.1 hmem with h | h
  · revert h; decide
  · rcases List.mem_append.1 h with h2 | h2
    · exact digit_ne_o (hm _ h2) rfl
    · revert h2; decide

theorem in_tag_ne_na {m : List Char} :
    ("in | ".toList ++ (m ++ ['\u2019'])) ≠ naTag := by
  intro h
  have h2 : 'i' :: ('n' :: (' ' :: ('|' :: (' ' :: (m ++ ['\u2019']))))) =
      'n' :: ('/' :: ('a' :: ([] : List Char))) := h
  injection h2 with h3 h4
  exact absurd h3 (by decide)

theorem out_tag_ne_na {m : List Char} :
    ("out | ".toList ++ (m ++ ['\u2019'])) ≠ naTag := by
  intro h
  have h2 : 'o' :: ('u' :: ('t' :: (' ' :: ('|' :: (' ' :: (m ++ ['\u2019'])))))) =
      'n' :: ('/' :: ('a' :: ([] : List Char))) := h
  injection h2 with h3 h4
  exact absurd h3 (by decide)

theorem contains_in_in_tag (m : List Char) :
    containsSub ("in | ".toList ++ (m ++ ['’'])) "in".toList = true :=
  contains_in_of_in_run (' ' :: ('|' :: (' ' :: (m ++ ['’']))))

theorem contains_out_out_tag (m : List Char) :
    containsSub ("out | ".toList ++ (m ++ ['’'])) "out".toList = true :=
  contains_out_of_out_run [' ', '|', ' '] (m ++ ['’'])

/-- C1: the starter classifier is a total function of (minutes, substitution
tag); for every minutes value and every substitution tag the code can attach
(the absent tag "n/a", or an in/out tag carrying digit minute characters),
assign_starter_flag returns exactly the four-case classification of the
specification: starter when minutes < 90 with an out component, non-starter
when minutes < 90 with an in component and no out component, starter when
minutes >= 90 with no tag, and non-starter in every other case. -/
theorem starter_classifier_matches_spec (mins : Int) (t : SubTag)
    (hm : ∀ c ∈ t.minuteChars, c ∈ digitChars) :
    assign_starter_flag mins (SubTag.render t) = starter_spec mins t := by
  cases t with
  | noTag =>
    show assign_starter_flag mins naTag = _
    unfold assign_starter_flag starter_spec
    have h1 : listLower naTag = naTag := by decide
    have h2 : containsSub naTag ['o', 'u', 't'] = false := by decide
    have h3 : containsSub naTag ['i', 'n'] = false := by decide
    simp [h1, h2, h3]
  | tagIn m =>
    have hm2 : ∀ c ∈ m, c ∈ digitChars := hm
    have hlow : listLower (SubTag.render (SubTag.tagIn m)) =
        "in | ".toList ++ (m ++ ['’']) := by
      show listLower ("In | ".toList ++ (m ++ ['’'])) = _
      rw [listLower_append, listLower_append, listLower_digits hm2]
      rfl
    have c1 : containsSub ('i' :: ('n' :: (' ' :: ('|' :: (' ' :: (m ++ ['’']))))))
        ['o', 'u', 't'] = false := no_out_in_lower_in_tag hm2
    have c2 : containsSub ('i' :: ('n' :: (' ' :: ('|' :: (' ' :: (m ++ ['’']))))))
        ['i', 'n'] = true := contains_in_in_tag m
    have c3 : ('i' :: ('n' :: (' ' :: ('|' :: (' ' :: (m ++ ['’'])))))) ≠ naTag :=
      in_tag_ne_na
    unfold assign_starter_flag starter_spec
    rw [hlow]
    simp [c1, c2, c3]
  | tagOut m =>
    have hm2 : ∀ c ∈ m, c ∈ digitChars := hm
    have hlow : listLower (SubTag.render (SubTag.tagOut m)) =
        "out | ".toList ++ (m ++ ['’']) := by
      show listLower ("Out | ".toList ++ (m ++ ['’'])) = _
      rw [listLower_append, listLower_append, listLower_digits hm2]
      rfl
    have c1 : containsSub ('o' :: ('u' :: ('t' :: (' ' :: ('|' :: (' ' :: (m ++ ['’'])))))))
        ['o', 'u', 't'] = true := contains_out_out_tag m
    have c3 : ('o' :: ('u' :: ('t' :: (' ' :: ('|' :: (' ' :: (m ++ ['’']))))))) ≠ naTag :=
      out_tag_ne_na
    unfold assign_starter_flag starter_spec
    rw [hlow]
    simp [c1, c3]

/-- Witness for C1 at a concrete input: a player with 67 minutes played
and an out-tag at minute 72 is classified a starter, as the specification
predicts. -/
theorem starter_classifier_matches_spec_witness :
    assign_starter_flag 67 (SubTag.render (SubTag.tagOut ['7', '2'])) =
      starter_spec 67 (SubTag.tagOut ['7', '2']) :=
  starter_classifier_matches_spec 67 (SubTag.tagOut ['7', '2']) (by decide)

/-! ## Halting-pattern URL predicate (schedule_url.py, is_bad_url) -/

/-- Python str.strip() whitespace characters (the ASCII class). -/
def isPySpace (c : Char) : Bool :=
  c == ' ' || c == '\t' || c == '\n' || c == '\r' || c == '\x0b' || c == '\x0c'

/-- Python url_text.strip(). -/
def pyStrip (l : List Char) : List Char :=
  ((l.dropWhile isPySpace).reverse.dropWhile isPySpace).reverse

/-- The regex character class [0-9A-Za-z]. -/
def isAlnumChar (c : Char) : Bool :=
  decide (('0' ≤ c ∧ c ≤ '9') ∨ ('A' ≤ c ∧ c ≤ 'Z') ∨ ('a' ≤ c ∧ c ≤ 'z'))

/-- Third stage of matching the pattern /[0-9A-Za-z]8/[0-9A-Za-z]8/ at a
position: the closing slash. -/
def badAt3 (l : List Char) : Bool :=
  match l with
  | c :: _ => c == '/'
  | [] => false

/-- Second stage: a slash, eight alphanumerics, then the third stage. -/
def badAt2 (l : List Char) : Bool :=
  match l with
  | c :: rest =>
    c == '/' && ((rest.take 8).length == 8 && (rest.take 8).all isAlnumChar &&
      badAt3 (rest.drop 8))
  | [] => false

/-- Match of the whole pattern /[0-9A-Za-z]8/[0-9A-Za-z]8/ anchored at the
current position, with the regex's no-backtracking-needed exact counting. -/
def badAt (l : List Char) : Bool :=
  match l with
  | c :: rest =>
    c == '/' && ((rest.take 8).length == 8 && (rest.take 8).all isAlnumChar &&
      badAt2 (rest.drop 8))
  | [] => false

/-- re.search: try the pattern at every start position. -/
def searchBad : List Char → Bool
  | [] => false
  | c :: rest => badAt (c :: rest) || searchBad rest

/-- Model of is_bad_url (schedule_url.py lines 23-30): an empty (falsy)
url gives False, otherwise the stripped url is searched for the
BAD_URL_REGEX pattern. -/
def is_bad_url (url : List Char) : Bool :=
  if url = [] then false else searchBad (pyStrip url)

theorem badAt3_iff (l : List Char) :
    badAt3 l = true ↔ ∃ post, l = '/' :: post := by
  cases l with
  | nil => simp [badAt3]
  | cons c rest =>
    simp only [badAt3, beq_iff_eq]
    constructor
    · intro h; exact ⟨rest, by rw [h]⟩
    · rintro ⟨post, h⟩
      injection h with h1 h2

theorem badAt2_iff (l : List Char) :
    badAt2 l = true ↔
      ∃ y post, l = '/' :: (y ++ ('/' :: post)) ∧ y.length = 8 ∧
        y.all isAlnumChar = true := by
  cases l with
  | nil => simp [badAt2]
  | cons c rest =>
    simp only [badAt2, Bool.and_eq_true, beq_iff_eq]
    constructor
    · rintro ⟨hc, ⟨hlen, hall⟩, h3⟩
      obtain ⟨post, hpost⟩ := (badAt3_iff _).1 h3
      refine ⟨rest.take 8, post, ?_, hlen, hall⟩
      rw [hc, ← hpost, List.take_append_drop]
    · rintro ⟨y, post, hdec, hlen, hall⟩
      injection hdec with h1 h2
      have ht : rest.take 8 = y := by
        rw [h2]; exact List.take_left' hlen
      have hd : rest.drop 8 = '/' :: post := by
        rw [h2]; exact List.drop_left' hlen
      refine ⟨h1, ⟨?_, ?_⟩, ?_⟩
      · rw [ht, hlen]
      · rw [ht]; exact hall
      · rw [hd]; exact (badAt3_iff _).2 ⟨post, rfl⟩

theorem badAt_iff (l : List Char) :
    badAt l = true ↔
      ∃ x y post, l = '/' :: (x ++ ('/' :: (y ++ ('/' :: post)))) ∧
        x.length = 8 ∧ y.length = 8 ∧
        x.all isAlnumChar = true ∧ y.all isAlnumChar = true := by
  cases l with
  | nil => simp [badAt]
  | cons c rest =>
    simp only [badAt, Bool.and_eq_true, beq_iff_eq]
    constructor
    · rintro ⟨hc, ⟨hlen, hall⟩, h2⟩
      obtain ⟨y, post, hdec, hylen, hyall⟩ := (badAt2_iff _).1 h2
      refine ⟨rest.take 8, y, post, ?_, hlen, hylen, hall, hyall⟩
      rw [hc, ← hdec, List.take_append_drop]
    · rintro ⟨x, y, post, hdec, hxlen, hylen, hxall, hyall⟩
      injection hdec with h1 h2
      have ht : rest.take 8 = x := by
        rw [h2]; exact List.take_left' hxlen
      have hd : rest.drop 8 = '/' :: (y ++ ('/' :: post)) := by
        rw [h2]; exact List.drop_left' hxlen
      refine ⟨h1, ⟨?_, ?_⟩, ?_⟩
      · rw [ht, hxlen]
      · rw [ht]; exact hxall
      · rw [hd]
        exact (badAt2_iff _).2 ⟨y, post, rfl, hylen, hyall⟩

theorem searchBad_iff (l : List Char) :
    searchBad l = true ↔ ∃ pre suf, l = pre ++ suf ∧ badAt suf = true := by
  induction l with
  | nil =>
    constructor
    · intro h
      exact absurd h (by simp [searchBad])
    · rintro ⟨pre, suf, hdec, hbad⟩
      have hps : pre = [] ∧ suf = [] := List.append_eq_nil.1 hdec.symm
      rw [hps.2] at hbad
      simp [badAt] at hbad
  | cons c rest ih =>
    simp only [searchBad, Bool.or_eq_true]
    constructor
    · rintro (h | h)
      · exact ⟨[], c :: rest, rfl, h⟩
      · obtain ⟨pre, suf, hdec, hbad⟩ := ih.1 h
        exact ⟨c :: pre, suf, by rw [hdec]; rfl, hbad⟩
    · rintro ⟨pre, suf, hdec, hbad⟩
      cases pre with
      | nil =>
        left
        rw [List.nil_append] at hdec
        rw [← hdec] at hbad
        exact hbad
      | cons p pre2 =>
        right
        injection hdec with h1 h2
        exact ih.2 ⟨pre2, suf, h2, hbad⟩

/-- C8: the halting-pattern check is a pure predicate of the URL string:
is_bad_url holds exactly when the (stripped) URL contains a slash, eight
alphanumerics, a slash, eight alphanumerics, and a slash, i.e. two
consecutive 8-character alphanumeric path segments; a single 8-character
segment or segments of other lengths make no such decomposition, so those
URLs are not classified as halting. -/
theorem is_bad_url_iff (url : List Char) :
    is_bad_url url = true ↔
      ∃ pre x y post,
        pyStrip url = pre ++ ('/' :: (x ++ ('/' :: (y ++ ('/' :: post))))) ∧
        x.length = 8 ∧ y.length = 8 ∧
        x.all isAlnumChar = true ∧ y.all isAlnumChar = true := by
  unfold is_bad_url
  by_cases hurl : url = []
  · subst hurl
    constructor
    · intro h
      simp at h
    · rintro ⟨pre, x, y, post, hdec, _, _, _, _⟩
      rw [show pyStrip [] = [] from rfl] at hdec
      exact absurd hdec.symm (by simp)
  · rw [if_neg hurl, searchBad_iff]
    constructor
    · rintro ⟨pre, suf, hdec, hbad⟩
      obtain ⟨x, y, post, hsuf, hx, hy, hxa, hya⟩ := (badAt_iff _).1 hbad
      exact ⟨pre, x, y, post, by rw [hdec, hsuf], hx, hy, hxa, hya⟩
    · rintro ⟨pre, x, y, post, hdec, hx, hy, hxa, hya⟩
      refine ⟨pre, '/' :: (x ++ ('/' :: (y ++ ('/' :: post)))), hdec, ?_⟩
      exact (badAt_iff _).2 ⟨x, y, post, rfl, hx, hy, hxa, hya⟩

/-! ## Natural-key upsert semantics (the ON DUPLICATE KEY UPDATE contract)

The MySQL table schemas are not part of the repository; following the
specification, the team table's natural key is (date, matchup, comp) and
the player table's natural key is (date, matchup, player identity, squad).
A table is an insertion-ordered association list from natural key to row;
an upsert overwrites the row in place when the key exists and appends
otherwise. -/

/-- Insert-or-overwrite-on-conflict for a keyed table. -/
def upsert {K V : Type} [DecidableEq K] (t : List (K × V)) (k : K) (v : V) :
    List (K × V) :=
  if t.any (fun p => p.1 = k) then t.map (fun p => if p.1 = k then (k, v) else p)
  else t ++ [(k, v)]

/-- Apply a list of keyed upserts in order. -/
def applyUpserts {K V : Type} [DecidableEq K] (t : List (K × V))
    (rows : List (K × V)) : List (K × V) :=
  rows.foldl (fun t p => upsert t p.1 p.2) t

/-- A key is present in a table. -/
def hasKey {K V : Type} [DecidableEq K] (t : List (K × V)) (k : K) : Prop :=
  ∃ p ∈ t, p.1 = k

/-- Every entry of the table under key k carries exactly the row v. -/
def keyFixed {K V : Type} (t : List (K × V)) (k : K) (v : V) : Prop :=
  ∀ p ∈ t, p.1 = k → p = (k, v)

theorem hasKey_upsert_self {K V : Type} [DecidableEq K] (t : List (K × V))
    (k : K) (v : V) : hasKey (upsert t k v) k := by
  unfold upsert hasKey
  by_cases h : t.any (fun p => p.1 = k)
  · rw [if_pos h]
    obtain ⟨p, hp, hpk⟩ := List.any_eq_true.1 h
    refine ⟨(k, v), List.mem_map.2 ⟨p, hp, ?_⟩, rfl⟩
    rw [if_pos (of_decide_eq_true hpk)]
  · rw [if_neg h]
    exact ⟨(k, v), List.mem_append_right _ (List.mem_singleton.2 rfl), rfl⟩

theorem hasKey_upsert_mono {K V : Type} [DecidableEq K] (t : List (K × V))
    (k k2 : K) (v : V) (h : hasKey t k) : hasKey (upsert t k2 v) k := by
  obtain ⟨p, hp, hpk⟩ := h
  unfold upsert
  by_cases hc : t.any (fun q => q.1 = k2)
  · rw [if_pos hc]
    by_cases hpe : p.1 = k2
    · refine ⟨(k2, v), List.mem_map.2 ⟨p, hp, by rw [if_pos hpe]⟩, ?_⟩
      rw [← hpe, hpk]
    · exact ⟨p, List.mem_map.2 ⟨p, hp, by rw [if_neg hpe]⟩, hpk⟩
  · rw [if_neg hc]
    exact ⟨p, List.mem_append_left _ hp, hpk⟩

theorem hasKey_applyUpserts_mono {K V : Type} [DecidableEq K]
    (rows : List (K × V)) (t : List (K × V)) (k : K) (h : hasKey t k) :
    hasKey (applyUpserts t rows) k := by
  induction rows generalizing t with
  | nil => exact h
  | cons r rest ih => exact ih _ (hasKey_upsert_mono _ _ _ _ h)

theorem keyFixed_upsert_self {K V : Type} [DecidableEq K] (t : List (K × V))
    (k : K) (v : V) : keyFixed (upsert t k v) k v := by
  unfold upsert keyFixed
  by_cases h : t.any (fun p => p.1 = k)
  · rw [if_pos h]
    intro p hp hpk
    obtain ⟨q, hq, hqe⟩ := List.mem_map.1 hp
    by_cases hqk : q.1 = k
    · rw [if_pos hqk] at hqe
      exact hqe.symm
    · rw [if_neg hqk] at hqe
      rw [← hqe] at hpk
      exact absurd hpk hqk
  · rw [if_neg h]
    intro p hp hpk
    rcases List.mem_append.1 hp with hl | hr
    · exact absurd (List.any_eq_true.2 ⟨p, hl, decide_eq_true hpk⟩) h
    · exact List.mem_singleton.1 hr

theorem keyFixed_upsert_other {K V : Type} [DecidableEq K] (t : List (K × V))
    (k k2 : K) (v v2 : V) (hne : k2 ≠ k) (h : keyFixed t k v) :
    keyFixed (upsert t k2 v2) k v := by
  unfold upsert
  by_cases hc : t.any (fun q => q.1 = k2)
  · rw [if_pos hc]
    intro p hp hpk
    obtain ⟨q, hq, hqe⟩ := List.mem_map.1 hp
    by_cases hqk : q.1 = k2
    · rw [if_pos hqk] at hqe
      rw [← hqe] at hpk
      exact absurd hpk hne
    · rw [if_neg hqk] at hqe
      rw [← hqe]
      exact h q hq (by rw [hqe]; exact hpk)
  · rw [if_neg hc]
    intro p hp hpk
    rcases List.mem_append.1 hp with hl | hr
    · exact h p hl hpk
    · rw [List.mem_singleton.1 hr] at hpk ⊢
      exact absurd hpk hne

theorem keyFixed_applyUpserts {K V : Type} [DecidableEq K]
    (rows : List (K × V)) (t : List (K × V)) (k : K) (v : V)
    (hk : k ∉ rows.map Prod.fst) (h : keyFixed t k v) :
    keyFixed (applyUpserts t rows) k v := by
  induction rows generalizing t with
  | nil => exact h
  | cons r rest ih =>
    have h1 : r.1 ≠ k := by
      intro he
      exact hk (by rw [← he]; exact List.mem_map_of_mem Prod.fst (List.mem_cons_self r rest))
    have h2 : k ∉ rest.map Prod.fst := fun hm => hk (List.mem_cons_of_mem _ hm)
    exact ih _ h2 (keyFixed_upsert_other _ _ _ _ _ h1 h)

theorem upsert_eq_self_of_fixed {K V : Type} [DecidableEq K] (t : List (K × V))
    (k : K) (v : V) (hk : hasKey t k) (h : keyFixed t k v) :
    upsert t k v = t := by
  unfold upsert
  obtain ⟨p, hp, hpk⟩ := hk
  rw [if_pos (List.any_eq_true.2 ⟨p, hp, decide_eq_true hpk⟩)]
  have : ∀ q ∈ t, (if q.1 = k then (k, v) else q) = q := by
    intro q hq
    by_cases hqk : q.1 = k
    · rw [if_pos hqk]
      exact (h q hq hqk).symm
    · rw [if_neg hqk]
  rw [List.map_congr_left this]
  exact List.map_id' t

/-- Replaying a batch of upserts with pairwise distinct keys over its own
result changes nothing: this is the formal content of upsert idempotence. -/
theorem applyUpserts_idem {K V : Type} [DecidableEq K]
    (rows : List (K × V)) (t : List (K × V))
    (hnd : (rows.map Prod.fst).Nodup) :
    applyUpserts (applyUpserts t rows) rows = applyUpserts t rows := by
  induction rows generalizing t with
  | nil => rfl
  | cons r rest ih =>
    have hk : r.1 ∉ rest.map Prod.fst := (List.nodup_cons.1 hnd).1
    have hnd2 : (rest.map Prod.fst).Nodup := (List.nodup_cons.1 hnd).2
    show applyUpserts
        (upsert (applyUpserts (upsert t r.1 r.2) rest) r.1 r.2) rest =
      applyUpserts (upsert t r.1 r.2) rest
    have hfix : keyFixed (applyUpserts (upsert t r.1 r.2) rest) r.1 r.2 :=
      keyFixed_applyUpserts rest _ _ _ hk (keyFixed_upsert_self t r.1 r.2)
    have hhas : hasKey (applyUpserts (upsert t r.1 r.2) rest) r.1 :=
      hasKey_applyUpserts_mono rest _ _ (hasKey_upsert_self t r.1 r.2)
    rw [upsert_eq_self_of_fixed _ _ _ hhas hfix]
    exact ih _ hnd2

/-! ## Persistence model (all_matchup_stats.py lines 560-823)

Natural keys, modelled from the spec: the table schemas are not in the
repository; the specification gives (date, matchup, competition) for the
team table and (date, matchup, player identity, squad) for the player
table. Row payload types are parameters, since no claim depends on the
serialized column values. -/

abbrev TeamKey := String × String × String

abbrev PlayerKey := String × String × String × String

/-- One SQL write executed inside the transaction: a team upsert, a player
upsert, or one plain shot-event insert (one executemany element). -/
inductive DBOp (TR PR ER : Type) where
  | team (k : TeamKey) (r : TR) : DBOp TR PR ER
  | player (k : PlayerKey) (r : PR) : DBOp TR PR ER
  | event (r : ER) : DBOp TR PR ER

/-- The three tables touched by one match. -/
structure DBState (TR PR ER : Type) where
  teams : List (TeamKey × TR)
  players : List (PlayerKey × PR)
  events : List ER

/-- Effect of one write on the staged table state: the two
generate_insert_sql statements are upserts; the match_events statement is
a plain append-only insert. -/
def applyOp {TR PR ER : Type} (db : DBState TR PR ER) :
    DBOp TR PR ER → DBState TR PR ER
  | DBOp.team k r => { db with teams := upsert db.teams k r }
  | DBOp.player k r => { db with players := upsert db.players k r }
  | DBOp.event r => { db with events := db.events ++ [r] }

/-- The derived batch handed to the writer for one match. -/
structure Batch (TR PR ER : Type) where
  teamKey : TeamKey
  teamRow : TR
  playerRows : List (PlayerKey × PR)
  eventRows : List ER

/-- The write sequence of scrape_and_insert_match_data: the team row, then
every player row, then the shot-event batch. -/
def batchOps {TR PR ER : Type} (b : Batch TR PR ER) : List (DBOp TR PR ER) :=
  DBOp.team b.teamKey b.teamRow ::
    (b.playerRows.map (fun p => DBOp.player p.1 p.2) ++
      b.eventRows.map DBOp.event)

/-- An open transaction: the durable snapshot other readers see, plus the
staged state accumulated by the cursor.execute calls. -/
structure TxState (TR PR ER : Type) where
  snapshot : DBState TR PR ER
  staged : DBState TR PR ER

/-- cursor.execute of one write inside the open transaction. -/
def stageOp {TR PR ER : Type} (tx : TxState TR PR ER) (op : DBOp TR PR ER) :
    TxState TR PR ER :=
  { tx with staged := applyOp tx.staged op }

/-- conn.commit(): the staged writes become durable. -/
def commitTx {TR PR ER : Type} (tx : TxState TR PR ER) : DBState TR PR ER :=
  tx.staged

/-- conn.rollback() (the except-branch of lines 817-823): the staged
writes are discarded and the snapshot is restored. -/
def rollbackTx {TR PR ER : Type} (tx : TxState TR PR ER) : DBState TR PR ER :=
  tx.snapshot

/-- Model of the try-block of scrape_and_insert_match_data: all writes are
executed on one connection and committed only after the last one; if the
write at index failIdx raises, the transaction is rolled back instead. -/
def runPersist {TR PR ER : Type} (db : DBState TR PR ER)
    (ops : List (DBOp TR PR ER)) (failIdx : Option Nat) : DBState TR PR ER :=
  match failIdx with
  | none => commitTx (ops.foldl stageOp ⟨db, db⟩)
  | some i =>
    if i < ops.length then rollbackTx ((ops.take i).foldl stageOp ⟨db, db⟩)
    else commitTx (ops.foldl stageOp ⟨db, db⟩)

theorem snapshot_foldl_stageOp {TR PR ER : Type} (ops : List (DBOp TR PR ER))
    (tx : TxState TR PR ER) : (ops.foldl stageOp tx).snapshot = tx.snapshot := by
  induction ops generalizing tx with
  | nil => rfl
  | cons op rest ih => exact ih _

theorem staged_foldl_stageOp {TR PR ER : Type} (ops : List (DBOp TR PR ER))
    (tx : TxState TR PR ER) : (ops.foldl stageOp tx).staged = ops.foldl applyOp tx.staged := by
  induction ops generalizing tx with
  | nil => rfl
  | cons op rest ih => exact ih _

/-- C2: the persistence step for one match is atomic. All writes of the
batch (team row, player rows, shot events) run in one transaction that
commits only after the last write; if the write at any index i fails
(e.g. the shot-event insert after the team and player rows were staged),
the whole batch is rolled back and each of the three tables is exactly
what it was before the match — no row from the match is visible. -/
theorem persist_batch_atomic {TR PR ER : Type} (db : DBState TR PR ER)
    (b : Batch TR PR ER) (i : Nat) (hi : i < (batchOps b).length) :
    runPersist db (batchOps b) (some i) = db := by
  have hred : runPersist db (batchOps b) (some i) =
      if i < (batchOps b).length then
        rollbackTx (((batchOps b).take i).foldl stageOp ⟨db, db⟩)
      else commitTx ((batchOps b).foldl stageOp ⟨db, db⟩) := rfl
  rw [hred, if_pos hi]
  unfold rollbackTx
  rw [snapshot_foldl_stageOp]

/-- Witness for C2: a concrete one-team one-player one-shot batch over an
empty store, failing at the shot-event write (index 2), leaves the store
empty. -/
theorem persist_batch_atomic_witness :
    runPersist (DBState.mk [] [] [] : DBState Nat Nat Nat)
      (batchOps (Batch.mk ("2024-01-01", "B @ A", "PL") 1
        [(("2024-01-01", "B @ A", "p1", "A"), 2)] [3])) (some 2) =
      DBState.mk [] [] [] :=
  persist_batch_atomic _ _ 2 (by decide)

/-! ## Insert statements (all_matchup_stats.py lines 161-175, 569-666, 734-751) -/

/-- Model of generate_insert_sql (lines 161-175): an INSERT with one
placeholder per column and an ON DUPLICATE KEY UPDATE clause assigning
every column its new value; whitespace is normalized to single spaces. -/
def generate_insert_sql (table_name : String) (columns : List String) : String :=
  let placeholders := String.intercalate ", " (columns.map (fun _ => "%s"))
  let columns_joined := String.intercalate ", " columns
  let update_clause :=
    String.intercalate ", " (columns.map (fun col => col ++ " = VALUES(" ++ col ++ ")"))
  "INSERT INTO " ++ table_name ++ " (" ++ columns_joined ++ ") VALUES (" ++
    placeholders ++ (") ON DUPLICATE KEY UPDATE " ++ update_clause)

/-- The literal match_events insert statement (lines 734-751): a plain
INSERT, with no ON DUPLICATE KEY UPDATE clause and no row-ordinal column. -/
def insert_events_sql : String :=
  "INSERT INTO match_events (match_report_url, minute, player_id, player, " ++
  "squad, outcome, distance, body_part, sca_1_player_id, sca_1_player, " ++
  "sca_1_event, sca_2_player_id, sca_2_player, sca_2_event) " ++
  "VALUES (%s, %s, %s, %s, %s, %s, %s, %s, %s, %s, %s, %s, %s, %s)"

/-- The upsert clause marker. -/
def upsertClause : List Char := "ON DUPLICATE KEY UPDATE".toList

/-- The all_matchups_teams column list (lines 569-606). -/
def teams_columns : List String :=
  ["date", "matchup", "comp", "home_squad", "away_squad", "score",
   "home_formation", "away_formation", "home_possession", "away_possession",
   "home_subs", "away_subs", "home_shots", "away_shots",
   "home_shots_on_target", "away_shots_on_target", "home_fouls", "away_fouls",
   "home_corner_kicks", "away_corner_kicks", "home_crosses", "away_crosses",
   "home_touches", "away_touches", "home_tackles", "away_tackles",
   "home_interceptions", "away_interceptions", "home_passes", "away_passes",
   "home_shots_assisted", "away_shots_assisted", "home_take_ons",
   "away_take_ons", "home_progressive_carries", "away_progressive_carries",
   "home_clearances", "away_clearances", "home_tackles_def_3rd",
   "away_tackles_def_3rd", "home_tackles_mid_3rd", "away_tackles_mid_3rd",
   "home_tackles_att_3rd", "away_tackles_att_3rd", "home_blocked_shots",
   "away_blocked_shots", "home_blocked_passes", "away_blocked_passes",
   "home_challenges", "away_challenges", "home_carries_into_final_third",
   "away_carries_into_final_third", "home_progressive_passes_received",
   "away_progressive_passes_received", "home_passes_into_final_third",
   "away_passes_into_final_third", "home_passes_into_penalty_area",
   "away_passes_into_penalty_area", "home_touches_def_3rd",
   "away_touches_def_3rd", "home_touches_mid_3rd", "away_touches_mid_3rd",
   "home_touches_att_3rd", "away_touches_att_3rd", "home_touches_att_pen_area",
   "away_touches_att_pen_area", "match_report_url", "home_sca", "away_sca",
   "home_team_id", "away_team_id"]

/-- The all_matchups_players column list (lines 650-666). -/
def players_columns : List String :=
  ["date", "matchup", "comp", "player", "player_id", "position", "squad",
   "opponent", "home_away", "minutes", "starter", "shots", "shots_on_target",
   "fouls", "corner_kicks", "crosses", "touches", "tackles", "interceptions",
   "passes", "shots_assisted", "take_ons", "progressive_carries", "clearances",
   "tackles_def_3rd", "tackles_mid_3rd", "tackles_att_3rd", "blocked_shots",
   "blocked_passes", "challenges", "carries_into_final_third",
   "progressive_passes_received", "passes_into_final_third",
   "passes_into_penalty_area", "touches_def_3rd", "touches_mid_3rd",
   "touches_att_3rd", "touches_att_pen_area", "sca", "sub_in_out",
   "match_report_url"]

theorem generate_insert_sql_has_upsert_clause (table_name : String)
    (columns : List String) :
    containsSub (generate_insert_sql table_name columns).toList upsertClause = true := by
  unfold generate_insert_sql
  simp only [containsSub, decide_eq_true_eq, String.toList, String.data_append]
  refine ⟨("INSERT INTO " ++ table_name ++ " (" ++
      String.intercalate ", " columns ++ ") VALUES (" ++
      String.intercalate ", " (columns.map (fun _ => "%s"))).data ++ [')', ' '],
    ' ' :: (String.intercalate ", "
      (columns.map (fun col => col ++ " = VALUES(" ++ col ++ ")"))).data, ?_⟩
  simp only [String.data_append, List.append_assoc, List.cons_append, List.nil_append]
  rfl

set_option maxRecDepth 8000 in
theorem insert_events_sql_no_upsert_clause :
    containsSub insert_events_sql.toList upsertClause = false := by
  decide

/-! ## Re-running a match batch (claim C3) -/

theorem foldl_applyOp_playerOps {TR PR ER : Type} (rows : List (PlayerKey × PR))
    (db : DBState TR PR ER) :
    (rows.map (fun p => (DBOp.player p.1 p.2 : DBOp TR PR ER))).foldl applyOp db =
      DBState.mk db.teams (applyUpserts db.players rows) db.events := by
  induction rows generalizing db with
  | nil => rfl
  | cons r rest ih =>
    simp only [List.map_cons, List.foldl_cons]
    rw [ih]
    rfl

theorem foldl_applyOp_eventOps {TR PR ER : Type} (rows : List ER)
    (db : DBState TR PR ER) :
    (rows.map (fun r => (DBOp.event r : DBOp TR PR ER))).foldl applyOp db =
      DBState.mk db.teams db.players (db.events ++ rows) := by
  induction rows generalizing db with
  | nil => simp only [List.map_nil, List.foldl_nil, List.append_nil]
  | cons r rest ih =>
    simp only [List.map_cons, List.foldl_cons]
    rw [ih]
    simp only [applyOp, List.append_assoc, List.singleton_append]

/-- A committed run of one match batch: the team row is one upsert, the
player rows are a sequence of upserts, and the shot events are appended. -/
theorem runPersist_batch_none {TR PR ER : Type} (db : DBState TR PR ER)
    (b : Batch TR PR ER) :
    runPersist db (batchOps b) none =
      DBState.mk (upsert db.teams b.teamKey b.teamRow)
        (applyUpserts db.players b.playerRows)
        (db.events ++ b.eventRows) := by
  show commitTx ((batchOps b).foldl stageOp ⟨db, db⟩) = _
  unfold commitTx
  rw [staged_foldl_stageOp]
  unfold batchOps
  rw [List.foldl_cons, List.foldl_append, foldl_applyOp_playerOps,
    foldl_applyOp_eventOps]
  rfl

set_option maxRecDepth 8000 in
/-- Counterexample to C3 as stated: the shot-event insert is not
upsert-safe. Re-running the identical one-shot batch over the store
produced by the first run changes the shot-event table (the row is
inserted a second time), and the match_events SQL statement carries no
ON DUPLICATE KEY UPDATE clause, unlike the two generate_insert_sql
statements. -/
theorem rerun_shot_events_not_idempotent :
    (runPersist
        (runPersist (DBState.mk [] [] [] : DBState Nat Nat Nat)
          (batchOps (Batch.mk ("2024-01-01", "B @ A", "PL") 1
            [(("2024-01-01", "B @ A", "p1", "A"), 2)] [3])) none)
        (batchOps (Batch.mk ("2024-01-01", "B @ A", "PL") 1
          [(("2024-01-01", "B @ A", "p1", "A"), 2)] [3])) none).events ≠
      (runPersist (DBState.mk [] [] [] : DBState Nat Nat Nat)
        (batchOps (Batch.mk ("2024-01-01", "B @ A", "PL") 1
          [(("2024-01-01", "B @ A", "p1", "A"), 2)] [3])) none).events ∧
    containsSub insert_events_sql.toList upsertClause = false := by
  constructor
  · decide
  · decide

/-- C3 amended: re-running the same match batch with identical derived
data is a no-op for the team row and the player rows (their INSERT ... ON
DUPLICATE KEY UPDATE statements overwrite themselves), but the shot-event
statement is a plain INSERT with no upsert clause, so the re-run appends
the shot-event rows a second time instead of overwriting them. -/
theorem rerun_batch_team_players_idempotent {TR PR ER : Type}
    (db : DBState TR PR ER) (b : Batch TR PR ER)
    (hnd : (b.playerRows.map Prod.fst).Nodup) :
    (runPersist (runPersist db (batchOps b) none) (batchOps b) none).teams =
        (runPersist db (batchOps b) none).teams ∧
    (runPersist (runPersist db (batchOps b) none) (batchOps b) none).players =
        (runPersist db (batchOps b) none).players ∧
    (runPersist (runPersist db (batchOps b) none) (batchOps b) none).events =
        (runPersist db (batchOps b) none).events ++ b.eventRows ∧
    containsSub (generate_insert_sql "all_matchups_teams" teams_columns).toList
        upsertClause = true ∧
    containsSub (generate_insert_sql "all_matchups_players" players_columns).toList
        upsertClause = true ∧
    containsSub insert_events_sql.toList upsertClause = false := by
  rw [runPersist_batch_none, runPersist_batch_none]
  refine ⟨?_, ?_, rfl, generate_insert_sql_has_upsert_clause _ _,
    generate_insert_sql_has_upsert_clause _ _, insert_events_sql_no_upsert_clause⟩
  · show upsert (upsert db.teams b.teamKey b.teamRow) b.teamKey b.teamRow =
      upsert db.teams b.teamKey b.teamRow
    exact upsert_eq_self_of_fixed _ _ _ (hasKey_upsert_self _ _ _)
      (keyFixed_upsert_self _ _ _)
  · show applyUpserts (applyUpserts db.players b.playerRows) b.playerRows =
      applyUpserts db.players b.playerRows
    exact applyUpserts_idem _ _ hnd

/-- Witness for C3's amended theorem at the concrete one-shot batch. -/
theorem rerun_batch_team_players_idempotent_witness :
    (runPersist
        (runPersist (DBState.mk [] [] [] : DBState Nat Nat Nat)
          (batchOps (Batch.mk ("2024-01-01", "B @ A", "PL") 1
            [(("2024-01-01", "B @ A", "p1", "A"), 2)] [3])) none)
        (batchOps (Batch.mk ("2024-01-01", "B @ A", "PL") 1
          [(("2024-01-01", "B @ A", "p1", "A"), 2)] [3])) none).teams =
      (runPersist (DBState.mk [] [] [] : DBState Nat Nat Nat)
        (batchOps (Batch.mk ("2024-01-01", "B @ A", "PL") 1
          [(("2024-01-01", "B @ A", "p1", "A"), 2)] [3])) none).teams :=
  (rerun_batch_team_players_idempotent _ _ (by decide)).1

/-! ## Team identity resolution (all_matchup_stats.py lines 219-278) -/

/-- The sentinel identity code used when resolution fails. -/
def sentinelId : String := "0000000000"

/-- Leftmost-match scan for a regex of the form pat([^/]+)/ : find the
first position where the literal pat is followed by a nonempty run of
non-slash characters and then a slash, and return the run. -/
def captureAfter (pat : List Char) : List Char → Option (List Char)
  | [] => none
  | c :: rest =>
    if pat.isPrefixOf (c :: rest) then
      let tail := (c :: rest).drop pat.length
      let tok := tail.takeWhile (fun x => x ≠ '/')
      if tok.length > 0 ∧ (tail.drop tok.length).head? = some '/' then some tok
      else captureAfter pat rest
    else captureAfter pat rest

/-- extract_team_id (lines 220-222): the capture of /en/squads/([^/]+)/,
or the sentinel when the regex does not match. -/
def extract_team_id (hval : List Char) : String :=
  match captureAfter "/en/squads/".toList hval with
  | some tok => String.mk tok
  | none => sentinelId

/-- found_team_map (lines 225-230): anchors with an href starting
/en/squads/ are folded into an insertion-ordered dict from anchor text to
extracted team id; a repeated name overwrites in place like a Python dict. -/
def found_team_map (anchors : List (String × String)) : List (String × String) :=
  (anchors.filter (fun a => "/en/squads/".toList.isPrefixOf a.2.toList)).foldl
    (fun m a => upsert m a.1 (extract_team_id a.2.toList)) []

/-- safe_lookup (lines 232-238): exact dict hit first, then the first
entry whose lowercased name contains the lowercased schedule name, else
the sentinel. -/
def safe_lookup (m : List (String × String)) (name : String) : String :=
  match m.lookup name with
  | some v => v
  | none =>
    match m.find? (fun kv => containsSub (listLower kv.1.toList)
        (listLower name.toList)) with
    | some kv => kv.2
    | none => sentinelId

/-- The static override table (lines 244-255) applied to one side. -/
def forced_team_id (team : String) (tid : String) : String :=
  if team = "Wolves" then "8cec06e1"
  else if team = "Manchester Utd" then "19538871"
  else if team = "Newcastle Utd" then "b2b47a98"
  else tid

/-- The complementary-identity fallback (lines 257-272). team_ids_found is
set(found_team_map.values()), modeled as the deduplicated value list; set
subtraction of the resolved id is a filter, and len(leftover) == 1
followed by pop() is the singleton match. The Bool records whether the
fallback-not-possible warning was printed. -/
def resolve_fallback (home_id away_id : String) (ids_found : List String) :
    String × String × Bool :=
  if home_id ≠ sentinelId ∧ away_id = sentinelId then
    match (ids_found.dedup).filter (fun x => x ≠ home_id) with
    | [b] => (home_id, b, false)
    | _ => (home_id, away_id, true)
  else if away_id ≠ sentinelId ∧ home_id = sentinelId then
    match (ids_found.dedup).filter (fun x => x ≠ away_id) with
    | [b] => (b, away_id, false)
    | _ => (home_id, away_id, true)
  else (home_id, away_id, false)

/-- C5: whenever exactly one side resolved, the discovered-code set minus
the resolved code having exactly one element (a singleton after
deduplication and filtering) assigns that element to the unresolved side
with no warning; otherwise the unresolved side keeps the sentinel and the
resolution warning is emitted. Both orientations are covered. -/
theorem complementary_fallback_correct (home_id away_id : String)
    (ids_found : List String) :
    (home_id ≠ sentinelId → away_id = sentinelId →
      (∀ b, (ids_found.dedup).filter (fun x => x ≠ home_id) = [b] →
          resolve_fallback home_id away_id ids_found = (home_id, b, false)) ∧
      (((ids_found.dedup).filter (fun x => x ≠ home_id)).length ≠ 1 →
          resolve_fallback home_id away_id ids_found =
            (home_id, sentinelId, true))) ∧
    (away_id ≠ sentinelId → home_id = sentinelId →
      (∀ b, (ids_found.dedup).filter (fun x => x ≠ away_id) = [b] →
          resolve_fallback home_id away_id ids_found = (b, away_id, false)) ∧
      (((ids_found.dedup).filter (fun x => x ≠ away_id)).length ≠ 1 →
          resolve_fallback home_id away_id ids_found =
            (sentinelId, away_id, true))) := by
  constructor
  · intro h1 h2
    unfold resolve_fallback
    rw [if_pos ⟨h1, h2⟩]
    constructor
    · intro b hb
      rw [hb]
    · intro hlen
      rcases hfe : (ids_found.dedup).filter (fun x => x ≠ home_id) with
        _ | ⟨b, _ | ⟨c, rest⟩⟩
      · rw [h2]
      · rw [hfe] at hlen
        exact absurd rfl hlen
      · rw [h2]
  · intro h1 h2
    unfold resolve_fallback
    have hcond : ¬ (home_id ≠ sentinelId ∧ away_id = sentinelId) := by
      intro hc
      exact hc.1 h2
    rw [if_neg hcond, if_pos ⟨h1, h2⟩]
    constructor
    · intro b hb
      rw [hb]
    · intro hlen
      rcases hfe : (ids_found.dedup).filter (fun x => x ≠ away_id) with
        _ | ⟨b, _ | ⟨c, rest⟩⟩
      · rw [h2]
      · rw [hfe] at hlen
        exact absurd rfl hlen
      · rw [h2]

/-- Witness for C5: discovered codes A and B with home resolved to A and
away unresolved; away resolves to B with no warning. -/
theorem complementary_fallback_correct_witness :
    resolve_fallback "aaa19b3c" sentinelId ["aaa19b3c", "b2b47a98"] =
      ("aaa19b3c", "b2b47a98", false) :=
  ((complementary_fallback_correct "aaa19b3c" sentinelId
    ["aaa19b3c", "b2b47a98"]).1 (by decide) rfl).1 "b2b47a98" (by decide)

/-! ## Player records and the stat-category aggregator (lines 324-451) -/

/-- The player_stat_map (lines 325-354): fbref data-stat keys mapped to db
columns. -/
def player_stat_map : List (String × String) :=
  [("shots", "shots"), ("shots_on_target", "shots_on_target"),
   ("fouls", "fouls"), ("corner_kicks", "corner_kicks"),
   ("crosses", "crosses"), ("touches", "touches"), ("tackles", "tackles"),
   ("interceptions", "interceptions"), ("passes", "passes"),
   ("assisted_shots", "shots_assisted"), ("take_ons", "take_ons"),
   ("progressive_carries", "progressive_carries"),
   ("clearances", "clearances"), ("tackles_def_3rd", "tackles_def_3rd"),
   ("tackles_mid_3rd", "tackles_mid_3rd"),
   ("tackles_att_3rd", "tackles_att_3rd"),
   ("blocked_shots", "blocked_shots"), ("blocked_passes", "blocked_passes"),
   ("challenges", "challenges"),
   ("carries_into_final_third", "carries_into_final_third"),
   ("progressive_passes_received", "progressive_passes_received"),
   ("passes_into_final_third", "passes_into_final_third"),
   ("passes_into_penalty_area", "passes_into_penalty_area"),
   ("touches_def_3rd", "touches_def_3rd"),
   ("touches_mid_3rd", "touches_mid_3rd"),
   ("touches_att_3rd", "touches_att_3rd"),
   ("touches_att_pen_area", "touches_att_pen_area"), ("sca", "sca")]

/-- One player's accumulated record, the pdict of init_player_dict (lines
366-377). The 27 integer stat cells are the stats function (zero where
never written); the fractional sca cell is the separate rational field. -/
structure PlayerRec where
  player_id : String
  player : String
  position : String
  minutes : Int
  starter : String
  sub_in_out : List Char
  stats : String → Int
  sca : ℚ

/-- init_player_dict: position "N/A", minutes 0, starter "no", sub_in_out
"n/a", every stat zero. -/
def init_player_dict (pid pname : String) : PlayerRec :=
  { player_id := pid, player := pname, position := "N/A", minutes := 0,
    starter := "no", sub_in_out := naTag, stats := fun _ => 0, sca := 0 }

/-- One data row of a stat-category table. player_anchor is the text and
href of the /en/players/ anchor inside the th[data-stat=player]; it is
none when the th or the anchor is missing (both cases make the code skip
the row, lines 403-408). cells holds the td cells keyed by their
data-stat attribute; row_.find returns the first matching cell. -/
structure StatRow where
  player_anchor : Option (String × String)
  cells : List (String × String)

/-- row_.find('td', data-stat=stat).get_text(strip=True). -/
def rowCell (r : StatRow) (stat : String) : Option String :=
  (r.cells.find? (fun c => c.1 = stat)).map Prod.snd

/-- The stats loop (lines 424-438) over one row and one record: for each
mapped stat whose cell is present, coerce the text and store it —
float into sca for the sca key, int otherwise. -/
def applyStats (r : StatRow) (p : PlayerRec) : PlayerRec :=
  player_stat_map.foldl (fun p e =>
    match rowCell r e.1 with
    | none => p
    | some txt =>
      if e.1 = "sca" then { p with sca := pyFloat txt }
      else { p with stats := Function.update p.stats e.2 (pyInt txt) }) p

/-- The position cell (lines 441-443): stripped text, or "N/A" when the
text is empty (Python or-default); absent cell leaves the field alone. -/
def applyPosition (r : StatRow) (p : PlayerRec) : PlayerRec :=
  match rowCell r "position" with
  | some txt => { p with position := if txt = "" then "N/A" else txt }
  | none => p

/-- The minutes cell (lines 446-451): int coercion with 0 on failure;
absent cell leaves the field alone. -/
def applyMinutes (r : StatRow) (p : PlayerRec) : PlayerRec :=
  match rowCell r "minutes" with
  | some txt => { p with minutes := pyInt txt }
  | none => p

/-- A side's player dict, insertion ordered. -/
abbrev PlayerMap := List (String × PlayerRec)

/-- Update the record stored under a key that is present. -/
def mapUpdate (m : PlayerMap) (pid : String) (f : PlayerRec → PlayerRec) :
    PlayerMap :=
  m.map (fun q => if q.1 = pid then (q.1, f q.2) else q)

/-- Python dict membership. -/
def mapHas (m : PlayerMap) (pid : String) : Bool :=
  m.any (fun q => q.1 = pid)

/-- One row of a stat table (lines 403-451): skip when no player anchor;
derive the player id from the href (sentinel when the regex fails);
create the record on first sight; then apply stats, position, minutes. -/
def processRow (m : PlayerMap) (r : StatRow) : PlayerMap :=
  match r.player_anchor with
  | none => m
  | some pa =>
    let pid :=
      match captureAfter "/en/players/".toList pa.2.toList with
      | some tok => String.mk tok
      | none => sentinelId
    let m2 := if mapHas m pid then m else m ++ [(pid, init_player_dict pid pa.1)]
    mapUpdate m2 pid (fun p => applyMinutes r (applyPosition r (applyStats r p)))

/-- One stat-category table: its id attribute (empty string models a
missing attribute, line 384) and its tbody rows, none when the table has
no tbody (lines 397-399). -/
structure StatsTable where
  id : String
  rows : Option (List StatRow)

/-- The capture of re.search(r'^stats_([^_]+)_', tid) (lines 385-388):
anchored literal stats_, a nonempty run of non-underscore characters,
then an underscore. -/
def tableCode (tid : List Char) : Option (List Char) :=
  if "stats_".toList.isPrefixOf tid then
    let rest := tid.drop 6
    let code := rest.takeWhile (fun c => c ≠ '_')
    if code.length > 0 ∧ (rest.drop code.length).head? = some '_' then some code
    else none
  else none

/-- Both sides' accumulating player dicts. -/
structure PMaps where
  home : PlayerMap
  away : PlayerMap

/-- Dispatch of one stat table (lines 383-401): the embedded code must
equal the home id (rows go to the home dict) or else the away id (away
dict); any other code, an unmatched id, or a missing tbody leaves both
dicts untouched. -/
def processTable (home_id away_id : String) (st : PMaps) (t : StatsTable) :
    PMaps :=
  match tableCode t.id.toList with
  | none => st
  | some code =>
    if String.mk code = home_id then
      match t.rows with
      | none => st
      | some rows => { st with home := rows.foldl processRow st.home }
    else if String.mk code = away_id then
      match t.rows with
      | none => st
      | some rows => { st with away := rows.foldl processRow st.away }
    else st

/-- The stats-table loop (line 383). -/
def processTables (home_id away_id : String) (st : PMaps)
    (tables : List StatsTable) : PMaps :=
  tables.foldl (processTable home_id away_id) st

/-- A table is relevant when its embedded code is one of the two resolved
ids. -/
def relevantTable (home_id away_id : String) (t : StatsTable) : Bool :=
  match tableCode t.id.toList with
  | some code => String.mk code = home_id ∨ String.mk code = away_id
  | none => false

theorem processTable_irrelevant (home_id away_id : String) (st : PMaps)
    (t : StatsTable) (hc : relevantTable home_id away_id t = false) :
    processTable home_id away_id st t = st := by
  unfold relevantTable at hc
  unfold processTable
  rcases hcode : tableCode t.id.toList with _ | code
  · rfl
  · rw [hcode] at hc
    simp only [decide_eq_false_iff_not, not_or] at hc
    dsimp only
    rw [if_neg hc.1, if_neg hc.2]

/-- C10: a stat-category table whose embedded team code is neither the
resolved home code nor the resolved away code is ignored entirely: it
changes neither side's player dict, and the whole table pass equals the
pass over only the relevant tables — every player record produced comes
from a table carrying one of the two resolved codes. -/
theorem foreign_tables_ignored (home_id away_id : String) (st : PMaps)
    (t : StatsTable) (tables : List StatsTable)
    (hc : relevantTable home_id away_id t = false) :
    processTable home_id away_id st t = st ∧
    processTables home_id away_id st tables =
      processTables home_id away_id st
        (tables.filter (relevantTable home_id away_id)) := by
  constructor
  · exact processTable_irrelevant home_id away_id st t hc
  · induction tables generalizing st with
    | nil => rfl
    | cons t2 rest ih =>
      by_cases hrel : relevantTable home_id away_id t2 = true
      · unfold processTables
        rw [List.filter_cons, if_pos hrel]
        exact ih _
      · have hrel2 : relevantTable home_id away_id t2 = false :=
          Bool.eq_false_iff.2 hrel
        unfold processTables
        rw [List.filter_cons, if_neg hrel]
        rw [List.foldl_cons, processTable_irrelevant home_id away_id st t2 hrel2]
        exact ih _

/-- Witness for C10: a summary table embedding the code of a third team
(a related-match widget) leaves both dicts empty. -/
theorem foreign_tables_ignored_witness :
    processTable "aaa19b3c" "b2b47a98" (PMaps.mk [] [])
        (StatsTable.mk "stats_cccccccc_summary" (some [])) = PMaps.mk [] [] ∧
    processTables "aaa19b3c" "b2b47a98" (PMaps.mk [] [])
        [StatsTable.mk "stats_cccccccc_summary" (some [])] =
      processTables "aaa19b3c" "b2b47a98" (PMaps.mk [] [])
        ([StatsTable.mk "stats_cccccccc_summary" (some [])].filter
          (relevantTable "aaa19b3c" "b2b47a98")) :=
  foreign_tables_ignored "aaa19b3c" "b2b47a98" (PMaps.mk [] [])
    (StatsTable.mk "stats_cccccccc_summary" (some []))
    [StatsTable.mk "stats_cccccccc_summary" (some [])] (by decide)

/-! ## Substitution event processor (lines 453-514) -/

/-- The two player links in an event's detail block: the first anchor (the
incoming player) and the anchor inside the small tag (the outgoing
player), each none when missing (lines 486-490). -/
structure EventInfo where
  in_anchor : Option String
  out_anchor : Option String

/-- One timeline event div: its css classes, the icon div's classes (none
when no icon div, line 460), the text of its first child div (none when
there is no child div, lines 476-479), and the detail block next to the
icon (none when missing, line 484). -/
structure SubEvent where
  classes : List String
  icon_classes : Option (List String)
  minute_text : Option String
  info : Option EventInfo

/-- The two player dicts and substitution counters mutated by the pass. -/
structure SubState where
  homePlayers : PlayerMap
  awayPlayers : PlayerMap
  home_subs_val : Nat
  away_subs_val : Nat

/-- Leftmost match of the regex (\d+)’ (line 480): the first maximal digit
run immediately followed by the prime mark. -/
def find_minute : List Char → Option (List Char)
  | [] => none
  | c :: rest =>
    if isDigitChar c then
      let run := (c :: rest).takeWhile isDigitChar
      if ((c :: rest).drop run.length).head? = some '’' then some run
      else find_minute rest
    else find_minute rest

/-- The minute string of an event (lines 477-482): 0 when there is no
child div; otherwise the captured digits, else 0. -/
def evMinute (e : SubEvent) : List Char :=
  match e.minute_text with
  | none => "0".toList
  | some mt => (find_minute mt.toList).getD "0".toList

/-- The side marker of the event div (lines 467-473): class a is home,
class b is away, otherwise unresolved. true encodes home. -/
def evSide (e : SubEvent) : Option Bool :=
  if "a" ∈ e.classes then some true
  else if "b" ∈ e.classes then some false
  else none

/-- Player-id capture from an anchor href (lines 493-499): the group of
/en/players/([^/]+)/, or None. -/
def evPlayerId (href : String) : Option String :=
  (captureAfter "/en/players/".toList href.toList).map String.mk

/-- The incoming player's href when the whole chain exists. -/
def evInHref (e : SubEvent) : Option String :=
  e.info.bind EventInfo.in_anchor

/-- The outgoing player's href when the whole chain exists. -/
def evOutHref (e : SubEvent) : Option String :=
  e.info.bind EventInfo.out_anchor

/-- The condition under which the code acts on a side for an event: a
substitute_in icon, the side marker resolving to that side, a detail
block, and both player anchor tags present — note player-id resolution
and dict membership are not part of it. -/
def eventActs (e : SubEvent) (homeSide : Bool) : Bool :=
  (match e.icon_classes with
   | some ics => decide ("substitute_in" ∈ ics)
   | none => false) &&
  (evSide e == some homeSide) &&
  (match e.info with
   | some info => info.in_anchor.isSome && info.out_anchor.isSome
   | none => false)

/-- Tagging step (lines 501-511): each of the two players is tagged
independently, exactly when its id resolved and is a key of the side's
dict; the in-tag is written first. -/
def tagPlayers (m : PlayerMap) (pin pout : Option String) (minute : List Char) :
    PlayerMap :=
  let m1 := match pin with
    | some pid =>
      if mapHas m pid then
        mapUpdate m pid
          (fun p => { p with sub_in_out := SubTag.render (SubTag.tagIn minute) })
      else m
    | none => m
  match pout with
  | some pid =>
    if mapHas m1 pid then
      mapUpdate m1 pid
        (fun p => { p with sub_in_out := SubTag.render (SubTag.tagOut minute) })
    else m1
  | none => m1

/-- One timeline event (lines 459-512): events without an icon, without
the substitute_in class, without a detail block, without both anchors, or
without a side marker change nothing; otherwise the acting side's dict is
tagged and its counter incremented — the increment is unconditional once
the side and the two anchor tags exist. -/
def processEvent (st : SubState) (e : SubEvent) : SubState :=
  match e.icon_classes with
  | none => st
  | some ics =>
    if "substitute_in" ∈ ics then
      match e.info with
      | none => st
      | some info =>
        match info.in_anchor, info.out_anchor with
        | some hin, some hout =>
          match evSide e with
          | some true =>
            { st with
              homePlayers := tagPlayers st.homePlayers (evPlayerId hin)
                (evPlayerId hout) (evMinute e),
              home_subs_val := st.home_subs_val + 1 }
          | some false =>
            { st with
              awayPlayers := tagPlayers st.awayPlayers (evPlayerId hin)
                (evPlayerId hout) (evMinute e),
              away_subs_val := st.away_subs_val + 1 }
          | none => st
        | _, _ => st
    else st

/-- The substitution pass (lines 456-514): fold all event divs when
events_wrap exists, otherwise leave the state unchanged. -/
def processEvents (wrap : Option (List SubEvent)) (st : SubState) : SubState :=
  match wrap with
  | none => st
  | some evs => evs.foldl processEvent st

/-- A concrete substitution event whose outgoing anchor href does not
resolve to a player id: the claim predicts it is skipped entirely. -/
def subEventEx : SubEvent :=
  { classes := ["event", "a"],
    icon_classes := some ["event_icon", "substitute_in"],
    minute_text := some "63’",
    info := some { in_anchor := some "/en/players/abcd1234/Joe-Smith",
                   out_anchor := some "no-player-link" } }

/-- The state before subEventEx: one known home player, no substitutions
counted yet. -/
def subStateEx : SubState :=
  { homePlayers := [("abcd1234", init_player_dict "abcd1234" "Joe Smith")],
    awayPlayers := [], home_subs_val := 0, away_subs_val := 0 }

set_option maxRecDepth 4000 in
/-- Counterexample to C6 as stated: for subEventEx the outgoing player
code does not resolve (evPlayerId returns none), so by the claim the
event must be skipped without incrementing the counter and without
tagging; the code nevertheless increments the home substitution counter
to 1 and tags the incoming player In | 63'. -/
theorem substitution_counted_without_both_resolving :
    evPlayerId "no-player-link" = none ∧
    (processEvent subStateEx subEventEx).home_subs_val = 1 ∧
    ((processEvent subStateEx subEventEx).homePlayers.lookup
        "abcd1234").map PlayerRec.sub_in_out =
      some (SubTag.render (SubTag.tagIn ['6', '3'])) := by
  refine ⟨rfl, rfl, ?_⟩
  decide

/-- C6 amended: for every timeline event, the acting side's substitution
counter is incremented exactly when the event has a substitute_in icon,
its side marker resolves to that side, and both player anchor tags are
present in its detail block — independently of whether the player ids
resolve or belong to the side's player dict; when that condition holds
the side's dict receives the in/out tags via tagPlayers, which tags each
of the two players independently, only if its id resolves to a key of the
dict; an event not meeting the condition for either side leaves the state
unchanged. -/
theorem substitution_event_effect (st : SubState) (e : SubEvent) :
    ((processEvent st e).home_subs_val =
        st.home_subs_val + (if eventActs e true = true then 1 else 0)) ∧
    ((processEvent st e).away_subs_val =
        st.away_subs_val + (if eventActs e false = true then 1 else 0)) ∧
    ((processEvent st e).homePlayers =
        if eventActs e true = true then
          tagPlayers st.homePlayers ((evInHref e).bind evPlayerId)
            ((evOutHref e).bind evPlayerId) (evMinute e)
        else st.homePlayers) ∧
    ((processEvent st e).awayPlayers =
        if eventActs e false = true then
          tagPlayers st.awayPlayers ((evInHref e).bind evPlayerId)
            ((evOutHref e).bind evPlayerId) (evMinute e)
        else st.awayPlayers) := by
  unfold processEvent eventActs evInHref evOutHref
  cases hic : e.icon_classes with
  | none => simp
  | some ics =>
    by_cases hmem : "substitute_in" ∈ ics
    · cases hinfo : e.info with
      | none => simp [hmem]
      | some info =>
        cases hin : info.in_anchor with
        | none => simp [hmem, hin]
        | some hinh =>
          cases hout : info.out_anchor with
          | none => simp [hmem, hin, hout]
          | some houth =>
            cases hside : evSide e with
            | none => simp [hmem, hin, hout, hside]
            | some b =>
              cases b
              · simp [hmem, hin, hout, hside]
              · simp [hmem, hin, hout, hside]
    · simp [hmem]

/-! ## Team aggregate summarizer (lines 537-547) -/

/-- One side's pass of sum_side (lines 538-544): for each player record,
every db column's accumulator receives that player's value. team_sums
keys are prefixed home_/away_, so the two sides' accumulators are
disjoint and one side is a function from db column to running total,
zero-initialized (lines 361-364); a column never written stays at the
player-record default 0, so accumulating pointwise over all columns is
exact. -/
def sum_side (pmap : List PlayerRec) (acc : String → Int) : String → Int :=
  pmap.foldl (fun a p => fun col => a col + p.stats col) acc

/-- home_sca_val / away_sca_val (lines 546-547): int(round(sum(x["sca"]
for x in players))) — the Python sum is a left fold from 0. -/
def side_sca_val (pmap : List PlayerRec) : Int :=
  pyRound (pmap.foldl (fun a p => a + p.sca) 0)

theorem sum_side_eq_acc_add_sum (pmap : List PlayerRec) (acc : String → Int)
    (col : String) :
    sum_side pmap acc col = acc col + (pmap.map (fun p => p.stats col)).sum := by
  induction pmap generalizing acc with
  | nil => simp [sum_side]
  | cons p rest ih =>
    show sum_side rest (fun c => acc c + p.stats c) col = _
    rw [ih]
    simp only [List.map_cons, List.sum_cons]
    ring

theorem sca_foldl_eq_add_sum (pmap : List PlayerRec) (a : ℚ) :
    pmap.foldl (fun a p => a + p.sca) a = a + (pmap.map PlayerRec.sca).sum := by
  induction pmap generalizing a with
  | nil => simp
  | cons p rest ih =>
    show rest.foldl (fun a p => a + p.sca) (a + p.sca) = _
    rw [ih]
    simp only [List.map_cons, List.sum_cons]
    ring

/-- C4: for every side of every match and every tracked column, the
team-aggregate accumulator equals the sum of that column over that side's
player records, and the team-level sca value equals the per-player
fractional sca values summed and then rounded to the nearest integer
(Python round, half to even). -/
theorem team_sums_are_player_sums (pmap : List PlayerRec) (col : String) :
    sum_side pmap (fun _ => 0) col = (pmap.map (fun p => p.stats col)).sum ∧
    side_sca_val pmap = pyRound ((pmap.map PlayerRec.sca).sum) := by
  constructor
  · rw [sum_side_eq_acc_add_sum]
    simp
  · unfold side_sca_val
    rw [sca_foldl_eq_add_sum]
    simp

/-! ## Match metadata extractor (lines 280-322) -/

/-- The scorebox: the stripped texts of its div.score children in document
order, and the (text, href) pairs of its /en/squads/ anchors. -/
structure ScoreBox where
  score_divs : List String
  squad_anchors : List (String × String)

/-- final_score (lines 281-287): exactly two score divs give H : A;
otherwise home and away default to "0" and pass through the same
format. -/
def final_score (sb : ScoreBox) : String :=
  match sb.score_divs with
  | [h, a] => h ++ " : " ++ a
  | _ => "0" ++ " : " ++ "0"

/-- The tr following the Possession header: present only when the whole
chain team_stats div → th[colspan=2] Possession → parent tr → next
sibling tr exists; each td carries its strong child's text when present. -/
structure PossRow where
  tds : List (Option String)

/-- The team_stats div. -/
structure TeamStatsDiv where
  poss_row : Option PossRow

/-- possession (lines 289-306): both sides default to 0% and each is
overwritten only when the chain exists, exactly two tds are found, and
that side's strong child is present. -/
def possession (ts : Option TeamStatsDiv) : String × String :=
  match ts with
  | none => ("0%", "0%")
  | some d =>
    match d.poss_row with
    | none => ("0%", "0%")
    | some r =>
      match r.tds with
      | [c1, c2] =>
        ((match c1 with | some s => s | none => "0%"),
         (match c2 with | some s => s | none => "0%"))
      | _ => ("0%", "0%")

/-- A lineup div: the text of its th[colspan=2] header when present. -/
structure LineupDiv where
  formation_th : Option String

/-- Leftmost match of the regex \(([^)]+)\): the first open paren followed
by a nonempty run of non-close-paren characters and a close paren. -/
def extract_paren : List Char → Option (List Char)
  | [] => none
  | c :: rest =>
    if c = '(' then
      if rest.takeWhile (fun x => x ≠ ')') ≠ [] ∧
          (rest.drop (rest.takeWhile (fun x => x ≠ ')')).length).head? = some ')' then
        some (rest.takeWhile (fun x => x ≠ ')'))
      else extract_paren rest
    else extract_paren rest

/-- formations (lines 307-322): both lineup divs and then both header ths
must be found before any extraction happens; only then is each side's
parenthesized token extracted with a per-side Unknown fallback; in every
other case both sides stay Unknown. -/
def formations (la lb : Option LineupDiv) : String × String :=
  match la, lb with
  | some a, some b =>
    match a.formation_th, b.formation_th with
    | some ta, some tb =>
      ((match extract_paren ta.toList with
        | some tok => String.mk tok
        | none => "Unknown"),
       (match extract_paren tb.toList with
        | some tok => String.mk tok
        | none => "Unknown"))
    | _, _ => ("Unknown", "Unknown")
  | _, _ => ("Unknown", "Unknown")

/-- The final score exactly as claim C9 words it: H : A from the two
located score elements, and the literal string "0:0" when the structure
is absent. -/
def spec_final_score (sb : ScoreBox) : String :=
  match sb.score_divs with
  | [h, a] => h ++ " : " ++ a
  | _ => "0:0"

/-- One side's formation exactly as claim C9 words it: the parenthesized
token regex-extracted from this side's lineup header, Unknown when
absent — independent of the other side. -/
def spec_formation_side (lineup : Option LineupDiv) : String :=
  match lineup with
  | some d =>
    match d.formation_th with
    | some t =>
      match extract_paren t.toList with
      | some tok => String.mk tok
      | none => "Unknown"
    | none => "Unknown"
  | none => "Unknown"

/-- The possession extraction as claim C9 words it: each side defaults to
0% when the block or structure is absent. -/
def spec_possession (ts : Option TeamStatsDiv) : String × String :=
  match ts.bind TeamStatsDiv.poss_row with
  | some r =>
    match r.tds with
    | [c1, c2] => (c1.getD "0%", c2.getD "0%")
    | _ => ("0%", "0%")
  | none => ("0%", "0%")

/-- The score default as the code actually produces it: the defaulted "0"
parts pass through the H : A format, giving "0 : 0". -/
def spec_final_score_amended (sb : ScoreBox) : String :=
  match sb.score_divs with
  | [h, a] => h ++ " : " ++ a
  | _ => "0 : 0"

/-- The formations as the code actually produces them: the per-side
extraction applies only when both lineup headers are present; in every
other case both sides default to Unknown. -/
def spec_formations_amended (la lb : Option LineupDiv) : String × String :=
  match la.bind LineupDiv.formation_th, lb.bind LineupDiv.formation_th with
  | some _, some _ => (spec_formation_side la, spec_formation_side lb)
  | _, _ => ("Unknown", "Unknown")

/-- Counterexample to C9 as stated: with the score structure absent the
code formats the defaulted parts as "0 : 0", not the claimed literal
"0:0"; and with a home lineup header present but the away lineup absent,
the code leaves the home formation Unknown although the claimed per-side
extraction yields 4-4-2. -/
theorem metadata_defaults_counterexample :
    final_score (ScoreBox.mk [] []) = "0 : 0" ∧
    spec_final_score (ScoreBox.mk [] []) = "0:0" ∧
    final_score (ScoreBox.mk [] []) ≠ spec_final_score (ScoreBox.mk [] []) ∧
    (formations (some (LineupDiv.mk (some "Arsenal (4-4-2)"))) none).1 =
      "Unknown" ∧
    spec_formation_side (some (LineupDiv.mk (some "Arsenal (4-4-2)"))) =
      "4-4-2" ∧
    (formations (some (LineupDiv.mk (some "Arsenal (4-4-2)"))) none).1 ≠
      spec_formation_side (some (LineupDiv.mk (some "Arsenal (4-4-2)"))) := by
  refine ⟨rfl, rfl, by decide, rfl, by decide, by decide⟩

/-- C9 amended: for every document, the final score is the H : A string
with both parts defaulting to "0" (so "0 : 0") when the score structure
is absent; each side's possession defaults to "0%" when the possession
structure is absent; and the formations are the per-side parenthesized
tokens of the lineup headers, extracted only when both headers are
present, with both sides defaulting to Unknown otherwise. -/
theorem metadata_extraction_defaults (sb : ScoreBox) (ts : Option TeamStatsDiv)
    (la lb : Option LineupDiv) :
    final_score sb = spec_final_score_amended sb ∧
    possession ts = spec_possession ts ∧
    formations la lb = spec_formations_amended la lb := by
  refine ⟨?_, ?_, ?_⟩
  · rcases sb with ⟨divs, anchors⟩
    rcases divs with _ | ⟨a1, _ | ⟨a2, _ | ⟨a3, r⟩⟩⟩ <;> rfl
  · rcases ts with _ | ⟨_ | ⟨tds⟩⟩
    · rfl
    · rfl
    · rcases tds with _ | ⟨c1, _ | ⟨c2, _ | ⟨c3, r⟩⟩⟩
      · rfl
      · rfl
      · rcases c1 with _ | s1 <;> rcases c2 with _ | s2 <;> rfl
      · rfl
  · rcases la with _ | ⟨_ | ta⟩ <;> rcases lb with _ | ⟨_ | tb⟩ <;> rfl

/-! ## Shot event extractor (lines 698-808) -/

/-- One cell of the shots table: its stripped text, its data-append-csv
attribute when present, and its anchor's href when present. -/
structure ShotRowCell where
  text : String
  append_csv : Option String
  anchor_href : Option String

/-- One tr of the shots table tbody. -/
structure ShotRow where
  classes : List String
  cells : List (String × ShotRowCell)

/-- The shots_all table: its tbody rows, none when there is no tbody. -/
structure ShotsTable where
  tbody : Option (List ShotRow)

/-- get_value_from_td_or_th (lines 703-706). -/
def get_value_from_td_or_th (r : ShotRow) (stat : String) : Option String :=
  (r.cells.find? (fun c => c.1 = stat)).map (fun c => c.2.text)

/-- get_player_id (lines 708-725): data-append-csv stripped if present,
else the fourth slash-component of the anchor href, else None. -/
def get_player_id (r : ShotRow) (stat : String) : Option String :=
  match r.cells.find? (fun c => c.1 = stat) with
  | none => none
  | some c =>
    match c.2.append_csv with
    | some s => some s.trim
    | none =>
      match c.2.anchor_href with
      | some href => (href.splitOn "/").get? 3
      | none => none

/-- One inserted match_events row (the 14-value executemany tuple). -/
structure ShotEventRow where
  match_report_url : String
  minute : Option String
  player_id : Option String
  player : Option String
  squad : Option String
  outcome : Option String
  distance : Option String
  body_part : Option String
  sca_1_player_id : Option String
  sca_1_player : Option String
  sca_1_event : Option String
  sca_2_player_id : Option String
  sca_2_player : Option String
  sca_2_event : Option String

/-- Python falsiness of an optional string: None or empty. -/
def pyFalsyOpt (o : Option String) : Bool :=
  o == none || o == some ""

/-- The shots loop (lines 727-799): spacer and partial_table rows are
skipped; a row whose minute or shooter text is falsy is dropped; every
other row becomes one batch tuple in order. -/
def extract_shot_events (url : String) (tbl : Option ShotsTable) :
    List ShotEventRow :=
  match tbl with
  | none => []
  | some t =>
    match t.tbody with
    | none => []
    | some rows =>
      rows.foldl (fun acc r =>
        if "spacer" ∈ r.classes ∨ "partial_table" ∈ r.classes then acc
        else
          if pyFalsyOpt (get_value_from_td_or_th r "minute") = true ∨
              pyFalsyOpt (get_value_from_td_or_th r "player") = true then acc
          else acc ++
            [{ match_report_url := url
               minute := get_value_from_td_or_th r "minute"
               player_id := get_player_id r "player"
               player := get_value_from_td_or_th r "player"
               squad := get_value_from_td_or_th r "team"
               outcome := get_value_from_td_or_th r "outcome"
               distance := get_value_from_td_or_th r "distance"
               body_part := get_value_from_td_or_th r "body_part"
               sca_1_player_id := get_player_id r "sca_1_player"
               sca_1_player := get_value_from_td_or_th r "sca_1_player"
               sca_1_event := get_value_from_td_or_th r "sca_1_type"
               sca_2_player_id := get_player_id r "sca_2_player"
               sca_2_player := get_value_from_td_or_th r "sca_2_player"
               sca_2_event := get_value_from_td_or_th r "sca_2_type" }]) []

/-! ## The full per-match pipeline (lines 177-823) -/

/-- The queryable parts of one fetched match-report document, as consumed
by scrape_and_insert_match_data. -/
structure Document where
  scorebox : Option ScoreBox
  team_stats : Option TeamStatsDiv
  lineup_a : Option LineupDiv
  lineup_b : Option LineupDiv
  stats_tables : List StatsTable
  events_wrap : Option (List SubEvent)
  shots_table : Option ShotsTable

/-- The schedule context of one match. -/
structure Ctx where
  date_str : String
  home_team : String
  away_team : String
  comp : String
  match_url : String

/-- matchup_str (line 197). -/
def matchup_str (ctx : Ctx) : String :=
  ctx.away_team ++ " @ " ++ ctx.home_team

/-- The starter pass (lines 532-535). -/
def assignStarters (m : PlayerMap) : PlayerMap :=
  m.map (fun q =>
    (q.1, { q.2 with starter := assign_starter_flag q.2.minutes q.2.sub_in_out }))

/-- Everything derived from one document before persistence. -/
structure MatchData where
  home_team_id : String
  away_team_id : String
  final_score : String
  home_pos : String
  away_pos : String
  home_formation : String
  away_formation : String
  maps : PMaps
  home_subs_val : Nat
  away_subs_val : Nat
  shots : List ShotEventRow

/-- The extraction phase of scrape_and_insert_match_data (lines 211-547):
a document without the scorebox aborts before any extraction (lines
213-217); otherwise team identities are resolved (with overrides and the
complementary fallback), metadata is extracted with its defaults, the six
stat tables are aggregated, the substitution timeline is processed, the
starter flags assigned, and the shot events extracted. -/
def scrape_match (ctx : Ctx) (doc : Document) : Option MatchData :=
  match doc.scorebox with
  | none => none
  | some sb =>
    let fmap := found_team_map sb.squad_anchors
    let home0 := forced_team_id ctx.home_team (safe_lookup fmap ctx.home_team)
    let away0 := forced_team_id ctx.away_team (safe_lookup fmap ctx.away_team)
    let ids := resolve_fallback home0 away0 (fmap.map Prod.snd)
    let pos := possession doc.team_stats
    let fm := formations doc.lineup_a doc.lineup_b
    let maps0 := processTables ids.1 ids.2.1 (PMaps.mk [] []) doc.stats_tables
    let subSt := processEvents doc.events_wrap
      (SubState.mk maps0.home maps0.away 0 0)
    some
      { home_team_id := ids.1
        away_team_id := ids.2.1
        final_score := final_score sb
        home_pos := pos.1
        away_pos := pos.2
        home_formation := fm.1
        away_formation := fm.2
        maps := PMaps.mk (assignStarters subSt.homePlayers)
          (assignStarters subSt.awayPlayers)
        home_subs_val := subSt.home_subs_val
        away_subs_val := subSt.away_subs_val
        shots := extract_shot_events ctx.match_url doc.shots_table }

/-- The serialized all_matchups_teams row (lines 609-646): the bound
values grouped by meaning; sums are the per-column accumulators per side. -/
structure TeamRowVal where
  squads : String × String
  score : String
  formations_v : String × String
  possession_v : String × String
  subs : Nat × Nat
  sums_home : String → Int
  sums_away : String → Int
  sca_vals : Int × Int
  team_ids : String × String
  url : String

/-- One serialized all_matchups_players row (lines 669-691). -/
structure PlayerRowVal where
  prec : PlayerRec
  squad : String
  opponent : String
  home_away : String
  url : String

/-- The insert batch of one match: the teams row under the spec's natural
key (date, matchup, comp), one row per player under (date, matchup,
player identity, squad), and the shot-event rows. -/
def buildBatch (ctx : Ctx) (md : MatchData) :
    Batch TeamRowVal PlayerRowVal ShotEventRow :=
  { teamKey := (ctx.date_str, matchup_str ctx, ctx.comp)
    teamRow :=
      { squads := (ctx.home_team, ctx.away_team)
        score := md.final_score
        formations_v := (md.home_formation, md.away_formation)
        possession_v := (md.home_pos, md.away_pos)
        subs := (md.home_subs_val, md.away_subs_val)
        sums_home := sum_side (md.maps.home.map Prod.snd) (fun _ => 0)
        sums_away := sum_side (md.maps.away.map Prod.snd) (fun _ => 0)
        sca_vals := (side_sca_val (md.maps.home.map Prod.snd),
          side_sca_val (md.maps.away.map Prod.snd))
        team_ids := (md.home_team_id, md.away_team_id)
        url := ctx.match_url }
    playerRows :=
      md.maps.home.map (fun q =>
        ((ctx.date_str, matchup_str ctx, q.2.player_id, ctx.home_team),
         { prec := q.2, squad := ctx.home_team, opponent := ctx.away_team,
           home_away := "home", url := ctx.match_url })) ++
      md.maps.away.map (fun q =>
        ((ctx.date_str, matchup_str ctx, q.2.player_id, ctx.away_team),
         { prec := q.2, squad := ctx.away_team, opponent := ctx.home_team,
           home_away := "away", url := ctx.match_url }))
    eventRows := md.shots }

/-- The whole per-match step given a fetched document: a missing scorebox
returns before extraction or persistence; otherwise the derived batch is
written through the transactional writer, with failIdx injecting a write
failure. -/
def scrape_and_insert (db : DBState TeamRowVal PlayerRowVal ShotEventRow)
    (ctx : Ctx) (doc : Document) (failIdx : Option Nat) :
    DBState TeamRowVal PlayerRowVal ShotEventRow :=
  match scrape_match ctx doc with
  | none => db
  | some md => runPersist db (batchOps (buildBatch ctx md)) failIdx

/-- C7: processing of a match aborts entirely exactly when the fetched
document lacks the top-level scorebox: no match data is derived
(scrape_match is none) and storage is untouched; when the scorebox is
present the extraction always proceeds to a derived batch, whatever
lesser metadata (score divs, possession block, lineup headers) is
absent. -/
theorem scorebox_gate (db : DBState TeamRowVal PlayerRowVal ShotEventRow)
    (ctx : Ctx) (doc : Document) (failIdx : Option Nat) :
    ((scrape_match ctx doc = none) ↔ doc.scorebox = none) ∧
    (doc.scorebox = none → scrape_and_insert db ctx doc failIdx = db) := by
  have hnone : doc.scorebox = none → scrape_match ctx doc = none := by
    intro h
    unfold scrape_match
    rw [h]
  constructor
  · constructor
    · intro h
      rcases hsb : doc.scorebox with _ | sb
      · rfl
      · unfold scrape_match at h
        rw [hsb] at h
        simp at h
    · exact hnone
  · intro h
    unfold scrape_and_insert
    rw [hnone h]

/-- Witness for C7: a document with no scorebox (even with every other
field also missing) derives nothing and leaves an empty store empty. -/
theorem scorebox_gate_witness :
    scrape_match (Ctx.mk "2024-01-01" "A" "B" "PL" "u") (Document.mk none
      none none none [] none none) = none ∧
    scrape_and_insert (DBState.mk [] [] [])
      (Ctx.mk "2024-01-01" "A" "B" "PL" "u")
      (Document.mk none none none none [] none none) none =
      DBState.mk [] [] [] :=
  ⟨(scorebox_gate (DBState.mk [] [] []) (Ctx.mk "2024-01-01" "A" "B" "PL" "u")
      (Document.mk none none none none [] none none) none).1.2 rfl,
   (scorebox_gate (DBState.mk [] [] []) (Ctx.mk "2024-01-01" "A" "B" "PL" "u")
      (Document.mk none none none none [] none none) none).2 rfl⟩
